import Mathlib

/-!
Verification development for the Cassandra/Express menu backend
(`src/unnamed/part_000`, the single server file).

The embedding models:
* the JavaScript string operations used by the search route
  (`toLowerCase`, `includes`, truthiness),
* the global connection state (`isDbConnected` / `dbInitialized`),
  the `checkDbConnection` middleware and the `connectToDatabase`
  retry loop,
* the six route handlers (`GET /api/menu-items`, `GET /api/menu-items/:id`,
  `POST /api/menu-items`, `PUT /api/menu-items/:id`,
  `DELETE /api/menu-items/:id`, `GET /api/search`) as pure functions from
  the connection state, the request, and the stored table to a response,
  the list of storage operations performed, and the table afterwards.

Storage (Cassandra) semantics for the single `menu_items` table are modelled
as an ordered list of rows: `SELECT *` returns the rows in storage order,
`UPDATE ... WHERE id = ?` is an upsert (it writes the listed columns and
creates the row when the id matches nothing), and `DELETE ... WHERE id = ?`
removes any row with that id and succeeds regardless of existence.
-/

/-- JS `String.prototype.toLowerCase` on one character (ASCII case mapping,
which is all the repository's data exercises). -/
def jsCharLower (c : Char) : Char :=
  if 'A' ≤ c ∧ c ≤ 'Z' then Char.ofNat (c.toNat + 32) else c

/-- JS `s.toLowerCase()`. -/
def jsToLower (s : String) : String :=
  ⟨s.data.map jsCharLower⟩

/-- `containsSub s t` is JS `s.includes(t)` on character lists: does `s`
contain `t` as a contiguous substring. -/
def containsSub : List Char → List Char → Bool
  | [], t => t.isEmpty
  | c :: s, t => t.isPrefixOf (c :: s) || containsSub s t

/-- JS `s.includes(t)` on strings. -/
def jsIncludes (s t : String) : Bool :=
  containsSub s.data t.data

/-- JS truthiness of a possibly-absent string value: `undefined`/`null`
(modelled `none`) and the empty string are falsy. -/
def jsFalsyStr : Option String → Bool
  | none => true
  | some s => s = ""

/-- Hexadecimal digit test, for UUID syntax. -/
def isHexDigit (c : Char) : Bool :=
  c.isDigit || ('a' ≤ c && c ≤ 'f') || ('A' ≤ c && c ≤ 'F')

/-- Split a character list at `'-'` separators (each separator ends a group). -/
def splitOnDash : List Char → List (List Char)
  | [] => [[]]
  | c :: cs =>
    if c = '-' then [] :: splitOnDash cs
    else
      match splitOnDash cs with
      | [] => [[c]]
      | g :: gs => (c :: g) :: gs

/-- Modelled from the spec: the external unique-identifier collaborator
(`cassandra.types.Uuid`), a 128-bit string-serializable id.  A well-formed
textual UUID is five hyphen-separated hexadecimal groups of sizes
8-4-4-4-12. -/
def isValidUuidString (s : String) : Bool :=
  let groups := splitOnDash s.data
  groups.length = 5 &&
    (groups.zip [8, 4, 4, 4, 12]).all
      (fun g => g.1.length = g.2 && g.1.all isHexDigit)

/-- Modelled from the spec: `cassandra.types.Uuid.fromString` — parses a
client-supplied id, rejecting malformed input (`none` models the throw the
handlers catch); the driver normalizes the textual form to lower case, so
UUID equality is case-insensitive. -/
def uuidFromString (s : String) : Option String :=
  if isValidUuidString s then some (jsToLower s) else none

/-- The two module-level connection flags (`let isDbConnected = false;
let dbInitialized = false;`). -/
structure ConnState where
  isDbConnected : Bool
  dbInitialized : Bool
deriving DecidableEq

/-- The spec's `isReady()`: both flags true. -/
def isReady (st : ConnState) : Bool :=
  st.isDbConnected && st.dbInitialized

/-- The `checkDbConnection` middleware condition: it sends the 503 response
exactly when `!isDbConnected || !dbInitialized`. -/
def checkDbConnectionRejects (st : ConnState) : Bool :=
  !st.isDbConnected || !st.dbInitialized

/-- A stored `menu_items` row.  `name`, `description`, `category` and the
timestamps are nullable in the schema, hence `Option`.  `price` carries the
request-supplied numeric text (`parseFloat`'s argument); no claim inspects
the numeric value, only which column is written.  Timestamps are modelled as
naturals. -/
structure MenuItem where
  id : String
  name : Option String
  description : Option String
  category : Option String
  price : String
  is_vegetarian : Bool
  created_at : Option Nat
  updated_at : Option Nat
deriving DecidableEq

/-- A JSON body field value: a string or a boolean. -/
inductive BodyVal
  | str (s : String)
  | boolean (b : Bool)
deriving DecidableEq

/-- The request body destructured by the POST and PUT handlers:
`const { name, description, category, price, is_vegetarian } = req.body`. -/
structure ReqBody where
  name : Option String
  description : Option String
  category : Option String
  price : Option String
  is_vegetarian : Option BodyVal
deriving DecidableEq

/-- `const isVegetarian = is_vegetarian === 'true' || is_vegetarian === true`. -/
def jsIsVegTrue : Option BodyVal → Bool
  | some (.str s) => s = "true"
  | some (.boolean b) => b
  | _ => false

/-- One storage (CQL) operation issued by a handler. -/
inductive StorageOp
  | selectAll
  | selectById (id : String)
  | insertRow (id : String)
  | updateRow (id : String)
  | deleteRow (id : String)
deriving DecidableEq

/-- An HTTP response, abstracted to the shapes the handlers produce. -/
inductive Resp
  | jsonItems (items : List MenuItem)
  | jsonItem (item : MenuItem)
  | created (id : String)
  | okJson (message : String)
  | badRequest (error : String)
  | notFound (error : String)
  | notReady
deriving DecidableEq

/-- Result of running one handler: the response sent, the storage operations
performed, and the table afterwards. -/
structure HandlerResult where
  resp : Resp
  ops : List StorageOp
  table : List MenuItem
deriving DecidableEq

/-- Response of the `GET /api/search` route: either the redirect to
`/api/menu-items` (whose body is the full listing) or the filtered list. -/
inductive SearchResp
  | redirected (items : List MenuItem)
  | filtered (items : List MenuItem)
  | notReady
deriving DecidableEq

/-- The column writes of the PUT route's `UPDATE` statement applied to one
row: exactly `name`, `description`, `category`, `price`, `is_vegetarian` and
`updated_at` are assigned; every other column (`id`, `created_at`) keeps the
row's value. -/
def putRowUpdate (nm ds ct pr : String) (veg : Bool) (now : Nat)
    (r : MenuItem) : MenuItem :=
  { r with name := some nm, description := some ds, category := some ct,
           price := pr, is_vegetarian := veg, updated_at := some now }

/-- Cassandra `UPDATE menu_items SET name=?,description=?,category=?,price=?,
is_vegetarian=?,updated_at=? WHERE id=?`: an upsert — when a row with the id
exists the listed columns are overwritten, otherwise a row is created with
only those columns (plus the key) set, `created_at` staying null. -/
def execUpdate (u nm ds ct pr : String) (veg : Bool) (now : Nat)
    (table : List MenuItem) : List MenuItem :=
  if table.any (fun r => r.id = u) then
    table.map (fun r => if r.id = u then putRowUpdate nm ds ct pr veg now r else r)
  else
    table ++ [{ id := u, name := some nm, description := some ds,
                category := some ct, price := pr, is_vegetarian := veg,
                created_at := none, updated_at := some now }]

/-- Cassandra `INSERT INTO menu_items ... VALUES (...)`: also an upsert by
primary key. -/
def execInsert (row : MenuItem) (table : List MenuItem) : List MenuItem :=
  if table.any (fun r => r.id = row.id) then
    table.map (fun r => if r.id = row.id then row else r)
  else
    table ++ [row]

/-- Cassandra `DELETE FROM menu_items WHERE id = ?`: removes any row with the
id; a miss is a silent no-op. -/
def execDelete (u : String) (table : List MenuItem) : List MenuItem :=
  table.filter (fun r => !(r.id = u : Bool))

/-- `GET /api/menu-items`: gate on the connection flags, `SELECT *`, return
the rows in storage order. -/
def getMenuItemsHandler (st : ConnState) (table : List MenuItem) :
    HandlerResult :=
  if checkDbConnectionRejects st then ⟨.notReady, [], table⟩
  else ⟨.jsonItems table, [.selectAll], table⟩

/-- `GET /api/menu-items/:id`: gate, validate the UUID (400 on a parse
throw), `SELECT * WHERE id = ?`, 404 when no row matches. -/
def getMenuItemByIdHandler (st : ConnState) (idParam : String)
    (table : List MenuItem) : HandlerResult :=
  if checkDbConnectionRejects st then ⟨.notReady, [], table⟩
  else
    match uuidFromString idParam with
    | none => ⟨.badRequest "Invalid ID format", [], table⟩
    | some u =>
      match table.filter (fun r => r.id = u) with
      | [] => ⟨.notFound "Menu item not found", [.selectById u], table⟩
      | r :: _ => ⟨.jsonItem r, [.selectById u], table⟩

/-- `POST /api/menu-items`: gate, required-field check (JS truthiness for
`name`/`description`/`category`, `price === undefined`), then INSERT with a
freshly generated id and `created_at = updated_at = now`.  `genId` stands for
`cassandra.types.Uuid.random()` and `now` for `new Date()`. -/
def postMenuItemHandler (st : ConnState) (body : ReqBody) (genId : String)
    (now : Nat) (table : List MenuItem) : HandlerResult :=
  if checkDbConnectionRejects st then ⟨.notReady, [], table⟩
  else if jsFalsyStr body.name || jsFalsyStr body.description ||
      jsFalsyStr body.category || body.price.isNone then
    ⟨.badRequest "Missing required fields", [], table⟩
  else
    let row : MenuItem :=
      { id := genId, name := body.name, description := body.description,
        category := body.category, price := body.price.getD "",
        is_vegetarian := jsIsVegTrue body.is_vegetarian,
        created_at := some now, updated_at := some now }
    ⟨.created genId, [.insertRow genId], execInsert row table⟩

/-- `PUT /api/menu-items/:id`: gate, UUID validation first, then the same
required-field check as POST, then the `UPDATE` of §`execUpdate` with
`updated_at = now`; the handler never checks whether the row exists and
always reports success. -/
def putMenuItemHandler (st : ConnState) (idParam : String) (body : ReqBody)
    (now : Nat) (table : List MenuItem) : HandlerResult :=
  if checkDbConnectionRejects st then ⟨.notReady, [], table⟩
  else
    match uuidFromString idParam with
    | none => ⟨.badRequest "Invalid ID format", [], table⟩
    | some u =>
      if jsFalsyStr body.name || jsFalsyStr body.description ||
          jsFalsyStr body.category || body.price.isNone then
        ⟨.badRequest "Missing required fields", [], table⟩
      else
        ⟨.okJson "Menu item updated successfully", [.updateRow u],
          execUpdate u (body.name.getD "") (body.description.getD "")
            (body.category.getD "") (body.price.getD "")
            (jsIsVegTrue body.is_vegetarian) now table⟩

/-- `DELETE /api/menu-items/:id`: gate, UUID validation, then the DELETE;
success is reported whether or not a row existed. -/
def deleteMenuItemHandler (st : ConnState) (idParam : String)
    (table : List MenuItem) : HandlerResult :=
  if checkDbConnectionRejects st then ⟨.notReady, [], table⟩
  else
    match uuidFromString idParam with
    | none => ⟨.badRequest "Invalid ID format", [], table⟩
    | some u =>
      ⟨.okJson "Menu item deleted successfully", [.deleteRow u],
        execDelete u table⟩

/-- The in-memory filter predicate of `GET /api/search`, one field:
`item.f && item.f.toLowerCase().includes(searchTerm)` — a null/absent or
empty field is falsy and short-circuits to no match. -/
def fieldMatchesSrc (f : Option String) (term : String) : Bool :=
  match f with
  | none => false
  | some s => !(s = "" : Bool) && jsIncludes (jsToLower s) term

/-- The filter predicate over the three searched fields (`name`,
`description`, `category`), exactly as in the source. -/
def srcMatches (term : String) (it : MenuItem) : Bool :=
  fieldMatchesSrc it.name term || fieldMatchesSrc it.description term ||
    fieldMatchesSrc it.category term

/-- Stated from the claim wording (for comparison with `srcMatches`): retain
a record whose lower-cased `name`, `description` or `category` contains the
lower-cased term as a substring; a null/absent field simply does not
match. -/
def fieldMatchesSpec (f : Option String) (term : String) : Bool :=
  match f with
  | none => false
  | some s => jsIncludes (jsToLower s) term

/-- The claim-worded search predicate over the three fields. -/
def specMatches (term : String) (it : MenuItem) : Bool :=
  fieldMatchesSpec it.name term || fieldMatchesSpec it.description term ||
    fieldMatchesSpec it.category term

/-- `GET /api/search`: gate; `searchTerm = req.query.q ? q.toLowerCase() : ''`;
an empty `searchTerm` redirects to `/api/menu-items` (whose body is the full
table in storage order — the redirect carries that listing); otherwise
`SELECT *` and the in-memory filter.  Returns the response and the storage
operations performed (for the redirect, the listing route's own `SELECT *`). -/
def searchMenuItemsHandler (st : ConnState) (q : Option String)
    (table : List MenuItem) : SearchResp × List StorageOp :=
  if checkDbConnectionRejects st then (.notReady, [])
  else
    let searchTerm : String :=
      match q with
      | none => ""
      | some s => if s = "" then "" else jsToLower s
    if searchTerm = "" then (.redirected table, [.selectAll])
    else (.filtered (table.filter (srcMatches searchTerm)), [.selectAll])

/-- Outcome of one run of the `connectToDatabase` provisioning sequence
(connect, create keyspace, use keyspace, create table, verification read):
which of the five awaited steps succeed.  A step only runs when every
earlier one succeeded, so the attempt as a whole succeeds exactly when the
conjunction holds. -/
structure AttemptOutcome where
  connectOk : Bool
  createKeyspaceOk : Bool
  useKeyspaceOk : Bool
  createTableOk : Bool
  testQueryOk : Bool
deriving DecidableEq

/-- The whole try-block of `connectToDatabase` succeeds iff every step does. -/
def attemptSucceeds (a : AttemptOutcome) : Bool :=
  a.connectOk && a.createKeyspaceOk && a.useKeyspaceOk && a.createTableOk &&
    a.testQueryOk

/-- The flag writes ending one attempt: on success the try-block's
`isDbConnected = true; dbInitialized = true;`, on failure the catch-block's
`isDbConnected = false; dbInitialized = false;`.  Each pair is two
synchronous assignments with no intervening await, hence one atomic step at
the embedding's observation granularity. -/
def attemptResult (ok : Bool) : ConnState :=
  if ok then ⟨true, true⟩ else ⟨false, false⟩

/-- The initial connection state at process start. -/
def initState : ConnState := ⟨false, false⟩

/-- Connection state observed after `n` attempts of the retry loop, the
attempt outcomes given by `oracle`.  Once ready, the loop has returned and
the state no longer changes. -/
def connectTrace (oracle : Nat → AttemptOutcome) : Nat → ConnState
  | 0 => initState
  | n + 1 =>
    if isReady (connectTrace oracle n) then connectTrace oracle n
    else attemptResult (attemptSucceeds (oracle n))

/-- The fixed retry delay: `await sleep(5000)`. -/
def retryDelayMs : Nat := 5000

/-- Delay inserted after attempt `k`: none on success (the function
returns), the fixed 5000 ms before the recursive call on failure. -/
def delayAfterAttempt (oracle : Nat → AttemptOutcome) (k : Nat) : Nat :=
  if attemptSucceeds (oracle k) then 0 else retryDelayMs

/-- How the promise of `connectToDatabase()` can stand at an observation
bound: still retrying, resolved with a value, or rejected with an escaped
provisioning fault. -/
inductive ConnectOutcome
  | running
  | resolved (v : Bool)
  | errored
deriving DecidableEq

/-- `connectToDatabase` from attempt `k`, observed for `fuel` attempts: the
try-block either succeeds (`return true`) or throws into the catch, which
resets the flags, sleeps the fixed delay and re-invokes the whole sequence
(`return connectToDatabase()`).  `running` records that the promise is still
pending after `fuel` failed attempts. -/
def connectToDatabase (oracle : Nat → AttemptOutcome) :
    Nat → Nat → ConnectOutcome
  | _, 0 => .running
  | k, fuel + 1 =>
    if attemptSucceeds (oracle k) then .resolved true
    else connectToDatabase oracle (k + 1) fuel

/-- Fixture: a ready connection state. -/
def readySt : ConnState := ⟨true, true⟩

/-- Fixture: a syntactically valid UUID string. -/
def exUuid : String := "123e4567-e89b-12d3-a456-426614174000"

/-- Fixture: a second valid UUID string, distinct from `exUuid`. -/
def exUuid2 : String := "00112233-4455-6677-8899-aabbccddeeff"

/-- Fixture: a complete, valid request body. -/
def exBody : ReqBody :=
  ⟨some "Soup", some "Tomato soup", some "Starter", some "4.50",
    some (.boolean true)⟩

/-- Fixture: a stored row. -/
def exSoup : MenuItem :=
  ⟨jsToLower exUuid, some "Soup", some "Tomato soup", some "Starter",
    "4.50", true, some 1, some 1⟩

/-- Fixture: an attempt in which every provisioning step succeeds. -/
def okOutcome : AttemptOutcome := ⟨true, true, true, true, true⟩

/-- Fixture: an attempt whose first step (connect) fails. -/
def failOutcome : AttemptOutcome := ⟨false, true, true, true, true⟩

/-- Fixture: provisioning fails on every attempt. -/
def failOracle : Nat → AttemptOutcome := fun _ => failOutcome

/-- Fixture: provisioning succeeds on every attempt. -/
def okOracle : Nat → AttemptOutcome := fun _ => okOutcome

/-! Helper lemmas shared by the claim theorems. -/

theorem data_eq_nil_iff (s : String) : s.data = [] ↔ s = "" := by
  constructor
  · intro h
    apply String.ext
    rw [h]
  · intro h
    subst h
    rfl

theorem containsSub_correct (s t : List Char) :
    containsSub s t = true ↔ t <:+: s := by
  induction s with
  | nil => simp [containsSub, List.isEmpty_iff]
  | cons c s ih =>
    simp [containsSub, List.infix_cons_iff, ih, Bool.or_eq_true,
      List.isPrefixOf_iff_prefix]

theorem jsToLower_eq_empty_iff (s : String) : jsToLower s = "" ↔ s = "" := by
  rw [← data_eq_nil_iff (jsToLower s), ← data_eq_nil_iff s]
  show s.data.map jsCharLower = [] ↔ s.data = []
  simp

theorem checkDb_rejects_iff (st : ConnState) :
    checkDbConnectionRejects st = !(isReady st) := by
  rcases st with ⟨a, b⟩
  cases a <;> cases b <;> rfl

theorem fieldMatches_src_eq_spec (f : Option String) (t : String)
    (ht : t ≠ "") : fieldMatchesSrc f t = fieldMatchesSpec f t := by
  cases f with
  | none => rfl
  | some s =>
    by_cases hs : s = ""
    · subst hs
      have hd : t.data ≠ [] := fun hnil => ht ((data_eq_nil_iff t).mp hnil)
      simp [fieldMatchesSrc, fieldMatchesSpec, jsIncludes, jsToLower,
        containsSub, List.isEmpty_iff, hd]
    · simp [fieldMatchesSrc, fieldMatchesSpec, hs]

theorem srcMatches_eq_specMatches (t : String) (ht : t ≠ "")
    (it : MenuItem) : srcMatches t it = specMatches t it := by
  simp [srcMatches, specMatches, fieldMatches_src_eq_spec _ t ht]

theorem connectToDatabase_all_fail (oracle : Nat → AttemptOutcome)
    (hall : ∀ j, attemptSucceeds (oracle j) = false) :
    ∀ fuel k, connectToDatabase oracle k fuel = .running := by
  intro fuel
  induction fuel with
  | zero => intro k; rfl
  | succ fuel ih =>
    intro k
    simp [connectToDatabase, hall k, ih]

theorem connectToDatabase_resolved_true (oracle : Nat → AttemptOutcome) :
    ∀ fuel k v, connectToDatabase oracle k fuel = .resolved v → v = true := by
  intro fuel
  induction fuel with
  | zero => intro k v h; exact absurd h (by simp [connectToDatabase])
  | succ fuel ih =>
    intro k v h
    by_cases hk : attemptSucceeds (oracle k) = true
    · simp [connectToDatabase, hk] at h
      exact h
    · simp [connectToDatabase, hk] at h
      exact ih (k + 1) v h

theorem connectToDatabase_ne_errored (oracle : Nat → AttemptOutcome) :
    ∀ fuel k, connectToDatabase oracle k fuel ≠ .errored := by
  intro fuel
  induction fuel with
  | zero => intro k h; exact absurd h (by simp [connectToDatabase])
  | succ fuel ih =>
    intro k h
    by_cases hk : attemptSucceeds (oracle k) = true
    · simp [connectToDatabase, hk] at h
    · simp [connectToDatabase, hk] at h
      exact ih (k + 1) h

/-! Claim theorems. -/

/-- Claim C3: `isReady()` is true exactly when both `ConnectionState` flags
are true, and while it is false every data-touching route (listing, fetch by
id, create, update, delete, search) responds with the distinguished 503
"service not ready" reply, performs no storage operation and leaves the
table unchanged. -/
theorem readiness_gating (st : ConnState) (h : isReady st = false)
    (table : List MenuItem) (idParam genId : String) (body : ReqBody)
    (now : Nat) (q : Option String) :
    (∀ st' : ConnState, isReady st' = true ↔
      st'.isDbConnected = true ∧ st'.dbInitialized = true) ∧
    getMenuItemsHandler st table = ⟨.notReady, [], table⟩ ∧
    getMenuItemByIdHandler st idParam table = ⟨.notReady, [], table⟩ ∧
    postMenuItemHandler st body genId now table = ⟨.notReady, [], table⟩ ∧
    putMenuItemHandler st idParam body now table = ⟨.notReady, [], table⟩ ∧
    deleteMenuItemHandler st idParam table = ⟨.notReady, [], table⟩ ∧
    searchMenuItemsHandler st q table = (.notReady, []) := by
  have hrej : checkDbConnectionRejects st = true := by
    rw [checkDb_rejects_iff, h]
    rfl
  refine ⟨fun st' => ?_, ?_, ?_, ?_, ?_, ?_, ?_⟩
  · rcases st' with ⟨a, b⟩
    cases a <;> cases b <;> simp [isReady]
  all_goals
    simp [getMenuItemsHandler, getMenuItemByIdHandler, postMenuItemHandler,
      putMenuItemHandler, deleteMenuItemHandler, searchMenuItemsHandler, hrej]

/-- Witness for C3: at the start state, the listing and the search route are
both answered with the distinguished not-ready reply and do nothing. -/
theorem readiness_gating_witness :
    getMenuItemsHandler ⟨false, false⟩ [] = ⟨.notReady, [], []⟩ ∧
    searchMenuItemsHandler ⟨false, false⟩ (some "soup") [] = (.notReady, []) := by
  have h := readiness_gating ⟨false, false⟩ rfl [] "x" "y" exBody 0 (some "soup")
  exact ⟨h.2.1, h.2.2.2.2.2.2⟩

/-- Claim C4: the two connection flags agree at every observable point of the
retry loop — both start false, a failure of any provisioning step makes the
attempt's flag write `⟨false, false⟩`, and (while not yet ready) the state
after an attempt is `⟨true, true⟩` exactly when the full five-step sequence
succeeded, so no mixed state persists. -/
theorem connection_flags_invariant (oracle : Nat → AttemptOutcome) (n : Nat)
    (a : AttemptOutcome)
    (hstep : a.connectOk = false ∨ a.createKeyspaceOk = false ∨
      a.useKeyspaceOk = false ∨ a.createTableOk = false ∨
      a.testQueryOk = false)
    (hnotready : isReady (connectTrace oracle n) = false) :
    connectTrace oracle 0 = ⟨false, false⟩ ∧
    (∀ m, (connectTrace oracle m).isDbConnected =
      (connectTrace oracle m).dbInitialized) ∧
    attemptResult (attemptSucceeds a) = ⟨false, false⟩ ∧
    (connectTrace oracle (n + 1) = ⟨true, true⟩ ↔
      attemptSucceeds (oracle n) = true) := by
  refine ⟨rfl, ?_, ?_, ?_⟩
  · intro m
    induction m with
    | zero => rfl
    | succ m ih =>
      rw [connectTrace]
      cases hm : isReady (connectTrace oracle m) with
      | true => simp [hm, ih]
      | false =>
        simp [hm]
        cases attemptSucceeds (oracle m) <;> simp [attemptResult]
  · rcases a with ⟨c1, c2, c3, c4, c5⟩
    rcases hstep with hs | hs | hs | hs | hs <;>
      simp [attemptSucceeds, attemptResult, hs] at * <;> simp [hs]
  · rw [connectTrace]
    simp only [hnotready, Bool.false_eq_true, if_false]
    cases attemptSucceeds (oracle n) <;> simp [attemptResult]

/-- Witness for C4: with an always-succeeding oracle, starting not ready,
the state after the first attempt is `⟨true, true⟩` iff the attempt
succeeded. -/
theorem connection_flags_invariant_witness :
    connectTrace okOracle (0 + 1) = ⟨true, true⟩ ↔
      attemptSucceeds (okOracle 0) = true :=
  (connection_flags_invariant okOracle 0 failOutcome (Or.inl rfl) rfl).2.2.2

/-- Claim C5: when an attempt fails, the flag write is `⟨false, false⟩`, the
inserted delay is the fixed 5000 ms — identical for every failed attempt, so
no backoff growth — and the entire sequence is re-run as the next attempt;
with every attempt failing the loop is still running after any number of
attempts (no maximum attempt count), and the loop's promise can only resolve
with success: no provisioning failure escapes to a caller and no error
outcome terminates it. -/
theorem retry_policy (oracle : Nat → AttemptOutcome) (k fuel : Nat)
    (hfail : attemptSucceeds (oracle k) = false) :
    attemptResult (attemptSucceeds (oracle k)) = ⟨false, false⟩ ∧
    delayAfterAttempt oracle k = 5000 ∧
    (∀ j, attemptSucceeds (oracle j) = false →
      delayAfterAttempt oracle j = delayAfterAttempt oracle k) ∧
    connectToDatabase oracle k (fuel + 1) =
      connectToDatabase oracle (k + 1) fuel ∧
    ((∀ j, attemptSucceeds (oracle j) = false) →
      connectToDatabase oracle k fuel = .running) ∧
    (∀ v, connectToDatabase oracle k fuel = .resolved v → v = true) ∧
    connectToDatabase oracle k fuel ≠ .errored := by
  refine ⟨by rw [hfail]; rfl,
    by simp [delayAfterAttempt, hfail, retryDelayMs], ?_, ?_, ?_, ?_, ?_⟩
  · intro j hj
    simp [delayAfterAttempt, hj, hfail]
  · simp [connectToDatabase, hfail]
  · intro hall
    exact connectToDatabase_all_fail oracle hall fuel k
  · intro v hv
    exact connectToDatabase_resolved_true oracle fuel k v hv
  · exact connectToDatabase_ne_errored oracle fuel k

/-- Witness for C5: with every attempt failing, the delay after the first
attempt is the fixed 5000 ms and the loop is still running after three
attempts. -/
theorem retry_policy_witness :
    delayAfterAttempt failOracle 0 = 5000 ∧
    connectToDatabase failOracle 0 3 = .running := by
  have h := retry_policy failOracle 0 3 rfl
  exact ⟨h.2.1, h.2.2.2.2.1 (fun j => rfl)⟩

/-- Claim C1 counterexample: with one stored record, the whitespace-only term
"   " is truthy in JS, is not special-cased by the handler, and filters every
record out, while the plain listing returns the record — so the search result
is an empty set, not the complete unfiltered set the claim requires. -/
theorem search_whitespace_counterexample :
    (searchMenuItemsHandler readySt (some "   ") [exSoup]).1 =
      .filtered [] ∧
    (getMenuItemsHandler readySt [exSoup]).resp = .jsonItems [exSoup] ∧
    SearchResp.filtered ([] : List MenuItem) ≠ .redirected [exSoup] ∧
    ([] : List MenuItem) ≠ [exSoup] := by decide

/-- Claim C1 (amended): a search call whose term is absent or the empty
string redirects to the plain listing and yields the complete unfiltered
record set in storage order; a whitespace-only (more generally, any
non-empty) term is not special-cased — it is passed literally to the
substring filter. -/
theorem search_empty_term_identity (st : ConnState) (h : isReady st = true)
    (q : Option String) (hq : q = none ∨ q = some "")
    (w : String) (hw : w ≠ "") (table : List MenuItem) :
    searchMenuItemsHandler st q table = (.redirected table, [.selectAll]) ∧
    (getMenuItemsHandler st table).resp = .jsonItems table ∧
    (searchMenuItemsHandler st (some w) table).1 =
      .filtered (table.filter (srcMatches (jsToLower w))) := by
  have hrej : checkDbConnectionRejects st = false := by
    rw [checkDb_rejects_iff, h]
    rfl
  have hwl : ¬(jsToLower w = "") := fun hh => hw ((jsToLower_eq_empty_iff w).mp hh)
  refine ⟨?_, ?_, ?_⟩
  · rcases hq with hq | hq <;> subst hq <;>
      simp [searchMenuItemsHandler, hrej]
  · simp [getMenuItemsHandler, hrej]
  · simp [searchMenuItemsHandler, hrej, hw, hwl]

/-- Witness for C1 (amended): searching with the empty term over one stored
record redirects to the listing carrying that record, and the whitespace
term filters. -/
theorem search_empty_term_identity_witness :
    searchMenuItemsHandler readySt (some "") [exSoup] =
      (.redirected [exSoup], [.selectAll]) ∧
    (searchMenuItemsHandler readySt (some "   ") [exSoup]).1 =
      .filtered ([exSoup].filter (srcMatches (jsToLower "   "))) := by
  have h := search_empty_term_identity readySt rfl (some "") (Or.inr rfl)
    "   " (by decide) [exSoup]
  exact ⟨h.1, h.2.2⟩

/-- Claim C2: for a non-empty term, the search route returns exactly the
records whose lower-cased `name`, `description` or `category` contains the
lower-cased term as a substring; the source predicate (with its JS
truthiness guard on each field) agrees with that claim predicate on every
record, a null/absent field never matching — and the embedding is a total
match on the option, so no such record can make the filter throw. -/
theorem search_filter_exact (st : ConnState) (h : isReady st = true)
    (q : String) (hq : q ≠ "") (table : List MenuItem) :
    (searchMenuItemsHandler st (some q) table).1 =
      .filtered (table.filter (specMatches (jsToLower q))) ∧
    (∀ it : MenuItem,
      srcMatches (jsToLower q) it = specMatches (jsToLower q) it) := by
  have hrej : checkDbConnectionRejects st = false := by
    rw [checkDb_rejects_iff, h]
    rfl
  have hql : ¬(jsToLower q = "") := fun hh => hq ((jsToLower_eq_empty_iff q).mp hh)
  have hpred : ∀ it : MenuItem,
      srcMatches (jsToLower q) it = specMatches (jsToLower q) it :=
    fun it => srcMatches_eq_specMatches (jsToLower q) hql it
  have hfilters : table.filter (srcMatches (jsToLower q)) =
      table.filter (specMatches (jsToLower q)) :=
    List.filter_congr (fun it _ => hpred it)
  refine ⟨?_, hpred⟩
  simp [searchMenuItemsHandler, hrej, hq, hql, hfilters]

/-- Witness for C2: the term "TOMATO" finds the stored record through its
lower-cased description. -/
theorem search_filter_exact_witness :
    (searchMenuItemsHandler readySt (some "TOMATO") [exSoup]).1 =
      .filtered ([exSoup].filter (specMatches (jsToLower "TOMATO"))) :=
  (search_filter_exact readySt rfl "TOMATO" (by decide) [exSoup]).1

/-- Claim C9: for a non-empty term, the search result is the in-order filter
of the rows storage returned — an order-preserving subsequence (`Sublist`)
of the storage sequence, with no sort applied. -/
theorem search_order_preserving (st : ConnState) (h : isReady st = true)
    (q : String) (hq : q ≠ "") (table : List MenuItem) :
    searchMenuItemsHandler st (some q) table =
      (.filtered (table.filter (srcMatches (jsToLower q))), [.selectAll]) ∧
    (table.filter (srcMatches (jsToLower q))).Sublist table := by
  have hrej : checkDbConnectionRejects st = false := by
    rw [checkDb_rejects_iff, h]
    rfl
  have hql : ¬(jsToLower q = "") := fun hh => hq ((jsToLower_eq_empty_iff q).mp hh)
  exact ⟨by simp [searchMenuItemsHandler, hrej, hq, hql],
    List.filter_sublist table⟩

/-- Witness for C9: searching "soup" over one record preserves the storage
order (the filtered list is a sublist of the table). -/
theorem search_order_preserving_witness :
    searchMenuItemsHandler readySt (some "soup") [exSoup] =
      (.filtered ([exSoup].filter (srcMatches (jsToLower "soup"))),
        [.selectAll]) ∧
    ([exSoup].filter (srcMatches (jsToLower "soup"))).Sublist [exSoup] :=
  search_order_preserving readySt rfl "soup" (by decide) [exSoup]

/-- Claim C6 counterexample: updating a well-formed id over an empty table
(so the id matches zero rows) succeeds with the handler's success message —
it does not yield NotFound. -/
theorem update_missing_id_counterexample :
    (putMenuItemHandler readySt exUuid exBody 100 []).resp =
      .okJson "Menu item updated successfully" ∧
    (putMenuItemHandler readySt exUuid exBody 100 []).resp ≠
      .notFound "Menu item not found" := by decide

/-- Claim C6 (amended): updating a well-formed id that matches zero rows does
not yield NotFound — the handler never checks existence, reports success, and
the storage primitive upserts a new row (with `created_at` null) carrying the
written columns. -/
theorem update_missing_id_upserts (st : ConnState) (h : isReady st = true)
    (idParam u : String) (hu : uuidFromString idParam = some u)
    (nm ds ct pr : String) (veg : Option BodyVal)
    (hnm : nm ≠ "") (hds : ds ≠ "") (hct : ct ≠ "")
    (table : List MenuItem) (now : Nat)
    (habs : ∀ r ∈ table, r.id ≠ u) :
    putMenuItemHandler st idParam ⟨some nm, some ds, some ct, some pr, veg⟩
        now table =
      ⟨.okJson "Menu item updated successfully", [.updateRow u],
        table ++ [{ id := u, name := some nm, description := some ds,
                    category := some ct, price := pr,
                    is_vegetarian := jsIsVegTrue veg,
                    created_at := none, updated_at := some now }]⟩ := by
  have hrej : checkDbConnectionRejects st = false := by
    rw [checkDb_rejects_iff, h]
    rfl
  have hany : table.any (fun r => (r.id = u : Bool)) = false := by
    rw [Bool.eq_false_iff]
    intro hcon
    rw [List.any_eq_true] at hcon
    obtain ⟨r, hr, hru⟩ := hcon
    exact habs r hr (by simpa using hru)
  simp [putMenuItemHandler, hrej, hu, jsFalsyStr, hnm, hds, hct,
    execUpdate, hany]

/-- Witness for C6 (amended): the concrete update of `exUuid` on the empty
table appends the upserted row. -/
theorem update_missing_id_upserts_witness :
    putMenuItemHandler readySt exUuid
      ⟨some "Soup", some "Tomato soup", some "Starter", some "4.50",
        some (.boolean true)⟩ 100 [] =
      ⟨.okJson "Menu item updated successfully",
        [.updateRow (jsToLower exUuid)],
        [] ++ [{ id := jsToLower exUuid, name := some "Soup",
                 description := some "Tomato soup",
                 category := some "Starter", price := "4.50",
                 is_vegetarian := jsIsVegTrue (some (.boolean true)),
                 created_at := none, updated_at := some 100 }]⟩ :=
  update_missing_id_upserts readySt rfl exUuid (jsToLower exUuid) (by decide)
    "Soup" "Tomato soup" "Starter" "4.50" (some (.boolean true))
    (by decide) (by decide) (by decide) [] 100 (by simp)

/-- Claim C7: updating an existing id writes exactly `name`, `description`,
`category`, `price`, `is_vegetarian` and `updated_at` on the matching row —
`id` and `created_at` keep the row's values, other rows are unchanged — and
whenever the clock value `now` is later than a row's previous `updated_at`,
the refreshed `updated_at` is strictly later than it. -/
theorem update_existing_frame (st : ConnState) (h : isReady st = true)
    (idParam u : String) (hu : uuidFromString idParam = some u)
    (nm ds ct pr : String) (veg : Option BodyVal)
    (hnm : nm ≠ "") (hds : ds ≠ "") (hct : ct ≠ "")
    (table : List MenuItem) (now : Nat)
    (hex : ∃ r ∈ table, r.id = u) :
    (putMenuItemHandler st idParam ⟨some nm, some ds, some ct, some pr, veg⟩
        now table).resp = .okJson "Menu item updated successfully" ∧
    (putMenuItemHandler st idParam ⟨some nm, some ds, some ct, some pr, veg⟩
        now table).table =
      table.map (fun r =>
        if r.id = u then putRowUpdate nm ds ct pr (jsIsVegTrue veg) now r
        else r) ∧
    (∀ r : MenuItem,
      (putRowUpdate nm ds ct pr (jsIsVegTrue veg) now r).id = r.id ∧
      (putRowUpdate nm ds ct pr (jsIsVegTrue veg) now r).created_at =
        r.created_at ∧
      (putRowUpdate nm ds ct pr (jsIsVegTrue veg) now r).updated_at =
        some now) ∧
    (∀ r ∈ table, ∀ u0, r.updated_at = some u0 → u0 < now →
      ∃ u1, (putRowUpdate nm ds ct pr (jsIsVegTrue veg) now r).updated_at =
        some u1 ∧ u0 < u1) := by
  have hrej : checkDbConnectionRejects st = false := by
    rw [checkDb_rejects_iff, h]
    rfl
  have hany : table.any (fun r => (r.id = u : Bool)) = true := by
    rw [List.any_eq_true]
    obtain ⟨r, hr, hru⟩ := hex
    exact ⟨r, hr, by simp [hru]⟩
  refine ⟨?_, ?_, fun r => ⟨rfl, rfl, rfl⟩, ?_⟩
  · simp [putMenuItemHandler, hrej, hu, jsFalsyStr, hnm, hds, hct]
  · simp [putMenuItemHandler, hrej, hu, jsFalsyStr, hnm, hds, hct,
      execUpdate, hany]
  · intro r _ u0 _ hlt
    exact ⟨now, rfl, hlt⟩

/-- Witness for C7: the concrete update of the stored `exSoup` row (previous
`updated_at` 1, clock 100) maps the table pointwise. -/
theorem update_existing_frame_witness :
    (putMenuItemHandler readySt exUuid
      ⟨some "Soup", some "Tomato soup", some "Starter", some "4.50",
        some (.boolean true)⟩ 100 [exSoup]).table =
      [exSoup].map (fun r =>
        if r.id = jsToLower exUuid
        then putRowUpdate "Soup" "Tomato soup" "Starter" "4.50"
          (jsIsVegTrue (some (.boolean true))) 100 r
        else r) :=
  (update_existing_frame readySt rfl exUuid (jsToLower exUuid) (by decide)
    "Soup" "Tomato soup" "Starter" "4.50" (some (.boolean true))
    (by decide) (by decide) (by decide) [exSoup] 100
    ⟨exSoup, by simp, by decide⟩).2.1

/-- Claim C8: with the service ready, a request carrying a malformed id
(fetch by id, update, delete) or a create/update missing a required field
(`name`, `description`, `category` or `price`) is answered 400
synchronously: no storage operation is issued and the table is unchanged. -/
theorem validation_before_storage (st : ConnState) (h : isReady st = true)
    (table : List MenuItem) (badId : String)
    (hbad : uuidFromString badId = none)
    (goodId u : String) (hu : uuidFromString goodId = some u)
    (body : ReqBody)
    (hmiss : body.name = none ∨ body.description = none ∨
      body.category = none ∨ body.price = none)
    (anyBody : ReqBody) (genId : String) (now : Nat) :
    getMenuItemByIdHandler st badId table =
      ⟨.badRequest "Invalid ID format", [], table⟩ ∧
    putMenuItemHandler st badId anyBody now table =
      ⟨.badRequest "Invalid ID format", [], table⟩ ∧
    deleteMenuItemHandler st badId table =
      ⟨.badRequest "Invalid ID format", [], table⟩ ∧
    postMenuItemHandler st body genId now table =
      ⟨.badRequest "Missing required fields", [], table⟩ ∧
    putMenuItemHandler st goodId body now table =
      ⟨.badRequest "Missing required fields", [], table⟩ := by
  have hrej : checkDbConnectionRejects st = false := by
    rw [checkDb_rejects_iff, h]
    rfl
  refine ⟨?_, ?_, ?_, ?_, ?_⟩
  · simp [getMenuItemByIdHandler, hrej, hbad]
  · simp [putMenuItemHandler, hrej, hbad]
  · simp [deleteMenuItemHandler, hrej, hbad]
  · rcases hmiss with hm | hm | hm | hm <;>
      simp [postMenuItemHandler, hrej, jsFalsyStr, hm]
  · rcases hmiss with hm | hm | hm | hm <;>
      simp [putMenuItemHandler, hrej, hu, jsFalsyStr, hm]

/-- Witness for C8: a malformed id is rejected on the fetch route and a body
with no `name` is rejected on the create route, the one-row table staying
untouched. -/
theorem validation_before_storage_witness :
    getMenuItemByIdHandler readySt "not-a-uuid" [exSoup] =
      ⟨.badRequest "Invalid ID format", [], [exSoup]⟩ ∧
    postMenuItemHandler readySt
      ⟨none, some "d", some "c", some "1", none⟩ "g" 5 [exSoup] =
      ⟨.badRequest "Missing required fields", [], [exSoup]⟩ := by
  have h := validation_before_storage readySt rfl [exSoup] "not-a-uuid"
    (by decide) exUuid (jsToLower exUuid) (by decide)
    ⟨none, some "d", some "c", some "1", none⟩ (Or.inl rfl) exBody "g" 5
  exact ⟨h.1, h.2.2.2.1⟩

/-- Claim C10: deleting with a well-formed id always reports the success
message (never NotFound), and when no row carries that id the record set is
unchanged. -/
theorem delete_success_regardless (st : ConnState) (h : isReady st = true)
    (idParam u : String) (hu : uuidFromString idParam = some u)
    (table : List MenuItem) :
    (deleteMenuItemHandler st idParam table).resp =
      .okJson "Menu item deleted successfully" ∧
    (∀ m, (deleteMenuItemHandler st idParam table).resp ≠ .notFound m) ∧
    ((∀ r ∈ table, r.id ≠ u) →
      (deleteMenuItemHandler st idParam table).table = table) := by
  have hrej : checkDbConnectionRejects st = false := by
    rw [checkDb_rejects_iff, h]
    rfl
  have hres : deleteMenuItemHandler st idParam table =
      ⟨.okJson "Menu item deleted successfully", [.deleteRow u],
        execDelete u table⟩ := by
    simp [deleteMenuItemHandler, hrej, hu]
  refine ⟨by rw [hres], ?_, ?_⟩
  · intro m
    rw [hres]
    simp
  · intro habs
    rw [hres]
    show execDelete u table = table
    rw [execDelete, List.filter_eq_self]
    intro r hr
    simp [habs r hr]

/-- Witness for C10: deleting the absent id `exUuid2` from the one-row table
succeeds and leaves the table unchanged. -/
theorem delete_success_regardless_witness :
    (deleteMenuItemHandler readySt exUuid2 [exSoup]).resp =
      .okJson "Menu item deleted successfully" ∧
    (deleteMenuItemHandler readySt exUuid2 [exSoup]).table = [exSoup] := by
  have h := delete_success_regardless readySt rfl exUuid2
    (jsToLower exUuid2) (by decide) [exSoup]
  exact ⟨h.1, h.2.2 (by decide)⟩
